import Mathlib

/-!
# Verification of the space-shooter simulation loop (src/main.rs)

Shallow embedding of the per-frame update pipeline of the Bevy space-shooter.
Positions and window extents are modelled as exact rationals (the source uses
`f32`; all constants and the claim scenarios are exactly representable, and the
spec states its contracts over exact values such as `x_min = 131`).

Modelling conventions, matching the Bevy semantics of the source:
* Component mutations through `Query<&mut ...>` take effect immediately and are
  seen by later systems in the same frame (`player_movement` → `player_bounds`,
  `enemy_movement` → `enemy_bounds` → `enemy_direction` are explicitly ordered
  by `.after` in `main`).
* Everything issued through `Commands` — entity spawns, despawns, and
  `NextState` inserts — is deferred: it is applied only after all Update
  systems of the frame ran.  In particular `enemy_hit_player` and
  `bullet_hit_enemy` both observe the full pre-despawn entity sets.
* Systems without explicit ordering are run in the order they are listed in
  `main`'s `add_systems` calls.
* State transitions (`apply_state_transition`, with the `OnExit(Game)` /
  `OnEnter(Game)` hooks) run in Bevy at the start of the next frame; composing
  them into the tail of the current frame's step, as done here, yields the same
  sequence of observable frame-boundary states.
* `distance(p, q) < r` is encoded as `dist2 p q < r ^ 2` (equivalent for
  `r > 0` since the distance is non-negative), keeping everything in `ℚ`.
-/

/-- `GAMEAREA_PADDING` from the source. -/
def GAMEAREA_PADDING : ℚ := 80

/-- `PLAYER_SPEED` from the source. -/
def PLAYER_SPEED : ℚ := 2000

/-- `PLAYER_SIZE` from the source. -/
def PLAYER_SIZE : ℚ := 90

/-- `ENEMY_PER_ROW` from the source. -/
def ENEMY_PER_ROW : Nat := 4

/-- `ENEMY_SPEED` from the source. -/
def ENEMY_SPEED : ℚ := 1000

/-- `ENEMY_SIZE` from the source. -/
def ENEMY_SIZE : ℚ := 102

/-- `ENEMY_SPACING` from the source. -/
def ENEMY_SPACING : ℚ := 120

/-- `BULLET_SPEED` from the source. -/
def BULLET_SPEED : ℚ := 1000

/-- `BULLET_SIZE` from the source. -/
def BULLET_SIZE : ℚ := 9

/-- A 2D vector / translation (the `z` coordinate of the source's `Vec3`
translations is constantly `0` and never read). -/
structure Vec2 where
  x : ℚ
  y : ℚ
deriving DecidableEq

def Vec2.add (a b : Vec2) : Vec2 := ⟨a.x + b.x, a.y + b.y⟩

def Vec2.scale (c : ℚ) (v : Vec2) : Vec2 := ⟨c * v.x, c * v.y⟩

/-- Squared Euclidean distance. -/
def dist2 (a b : Vec2) : ℚ := (a.x - b.x) ^ 2 + (a.y - b.y) ^ 2

/-- `AppState` from the source. -/
inductive AppState
  | MainMenu
  | Game
  | GameOver
deriving DecidableEq

/-- `SimulationState` from the source. -/
inductive SimulationState
  | Running
  | Paused
deriving DecidableEq

/-- The `Enemy` component together with its transform. -/
structure Enemy where
  pos : Vec2
  direction : Vec2
  row : Nat
  col : Nat
deriving DecidableEq

/-- The entity sets and the `Score` resource.  Entities of each kind are kept
in spawn order; during one frame the lists are stable (spawns and despawns are
deferred), so a position in the list is a stable identity for that frame. -/
structure World where
  players : List Vec2
  enemies : List Enemy
  bullets : List Vec2
  score : Nat
deriving DecidableEq

/-- The two state machines plus the world. -/
structure GState where
  app : AppState
  sim : SimulationState
  world : World
deriving DecidableEq

/-- Per-frame external inputs: window extent, elapsed seconds, keyboard.
`invSqrt2` is the model constant standing for `1/√2` (see `normDir`);
every theorem below holds for every value of it. -/
structure Env where
  winW : ℚ
  winH : ℚ
  dt : ℚ
  invSqrt2 : ℚ
  keyLeft : Bool
  keyRight : Bool
  keyUp : Bool
  keyDown : Bool
  keySpace : Bool
  keyG : Bool
  keyP : Bool
deriving DecidableEq

/-- `Query::get_single`: succeeds exactly when there is exactly one entity. -/
def getSingle : List α → Option α
  | [a] => some a
  | _ => none

/-- The clamp pattern used by `player_bounds` and `enemy_bounds`:
`if x < lo { lo } else if x > hi { hi } else { x }`. -/
def clampQ (lo hi x : ℚ) : ℚ :=
  if x < lo then lo else if hi < x then hi else x

/-- The raw movement direction summed from held arrow keys
(`player_movement`, before normalisation). -/
def rawDir (env : Env) : Vec2 :=
  let d1 := if env.keyLeft then Vec2.add ⟨0, 0⟩ ⟨-1, 0⟩ else ⟨0, 0⟩
  let d2 := if env.keyRight then Vec2.add d1 ⟨1, 0⟩ else d1
  let d3 := if env.keyUp then Vec2.add d2 ⟨0, 1⟩ else d2
  if env.keyDown then Vec2.add d3 ⟨0, -1⟩ else d3

/-- `direction.normalize()` as applied in `player_movement`.  The key-derived
direction has components in `{-1, 0, 1}`, so its length is `0`, `1` or `√2`;
the source skips normalisation at length `0`, axis directions are already
unit, and a diagonal is scaled by `1/√2`.  `√2` is irrational, so the exact
diagonal scale is the model parameter `invS`; no claim depends on its value. -/
def normDir (invS : ℚ) (d : Vec2) : Vec2 :=
  if d.x ≠ 0 ∧ d.y ≠ 0 then ⟨d.x * invS, d.y * invS⟩ else d

/-- `player_movement`: a no-op unless there is exactly one player. -/
def player_movement (env : Env) (ps : List Vec2) : List Vec2 :=
  match ps with
  | [p] => [Vec2.add p (Vec2.scale (PLAYER_SPEED * env.dt) (normDir env.invSqrt2 (rawDir env)))]
  | other => other

/-- `player_bounds`: clamp the single player to
`[r_p, W - r_p] × [r_p, H - r_p]`. -/
def player_bounds (env : Env) (ps : List Vec2) : List Vec2 :=
  match ps with
  | [p] => [⟨clampQ (PLAYER_SIZE / 2) (env.winW - PLAYER_SIZE / 2) p.x,
            clampQ (PLAYER_SIZE / 2) (env.winH - PLAYER_SIZE / 2) p.y⟩]
  | other => other

/-- Lane lower bound of an adversary, from `enemy_bounds` / `enemy_direction`. -/
def enemyXMin (c : Nat) : ℚ :=
  GAMEAREA_PADDING + ENEMY_SPACING * (c : ℚ) + ENEMY_SIZE / 2

/-- Lane upper bound of an adversary.  The source computes
`ENEMY_PER_ROW - enemy.col - 1` in `usize`; for the spawned columns
`c < ENEMY_PER_ROW` this equals the truncated subtraction used here
(for `c ≥ ENEMY_PER_ROW` the source would panic on underflow in a debug
build; such enemies are never spawned). -/
def enemyXMax (w : ℚ) (c : Nat) : ℚ :=
  w - GAMEAREA_PADDING - ENEMY_SPACING * ((ENEMY_PER_ROW - c - 1 : Nat) : ℚ) - ENEMY_SIZE / 2

/-- Body of the `enemy_movement` loop for one enemy. -/
def enemy_movement_one (env : Env) (e : Enemy) : Enemy :=
  { e with pos := Vec2.add e.pos (Vec2.scale (ENEMY_SPEED * env.dt) e.direction) }

/-- `enemy_movement`. -/
def enemy_movement (env : Env) (es : List Enemy) : List Enemy :=
  es.map (enemy_movement_one env)

/-- Body of the `enemy_bounds` loop for one enemy: clamp `x` to its lane;
`y` is not clamped. -/
def enemy_bounds_one (w : ℚ) (e : Enemy) : Enemy :=
  { e with pos := ⟨clampQ (enemyXMin e.col) (enemyXMax w e.col) e.pos.x, e.pos.y⟩ }

/-- `enemy_bounds`. -/
def enemy_bounds (env : Env) (es : List Enemy) : List Enemy :=
  es.map (enemy_bounds_one env.winW)

/-- Body of the `enemy_direction` loop for one enemy: exact comparison of the
clamped `x` against the lane walls, flipping `direction.x` on contact. -/
def enemy_direction_one (w : ℚ) (e : Enemy) : Enemy :=
  if e.pos.x = enemyXMin e.col ∨ e.pos.x = enemyXMax w e.col then
    { e with direction := ⟨-e.direction.x, e.direction.y⟩ }
  else e

/-- `enemy_direction`. -/
def enemy_direction (env : Env) (es : List Enemy) : List Enemy :=
  es.map (enemy_direction_one env.winW)

/-- `distance < r_p + r_e` test of `enemy_hit_player`, squared. -/
def playerHits (p : Vec2) (e : Enemy) : Bool :=
  decide (dist2 p e.pos < (PLAYER_SIZE / 2 + ENEMY_SIZE / 2) ^ 2)

/-- `distance < r_b + r_e` test of `bullet_hit_enemy`, squared. -/
def bulletHits (b : Vec2) (e : Enemy) : Bool :=
  decide (dist2 b e.pos < (BULLET_SIZE / 2 + ENEMY_SIZE / 2) ^ 2)

/-- Index of the first enemy colliding with the player (the source `break`s
after the first hit). -/
def findHitAux (p : Vec2) : Nat → List Enemy → Option Nat
  | _, [] => none
  | j, e :: es => if playerHits p e then some j else findHitAux p (j + 1) es

/-- `enemy_hit_player`: requires exactly one player; returns the index of the
despawned enemy (the player despawn and the `GameOver` event accompany a
`some` result). -/
def enemy_hit_player (ps : List Vec2) (es : List Enemy) : Option Nat :=
  match getSingle ps with
  | some p => findHitAux p 0 es
  | none => none

/-- Indices of the enemies hit by one bullet, in scan order. -/
def hitIdxsAux (b : Vec2) : Nat → List Enemy → List Nat
  | _, [] => []
  | j, e :: es =>
      if bulletHits b e then j :: hitIdxsAux b (j + 1) es else hitIdxsAux b (j + 1) es

/-- The nested scan of `bullet_hit_enemy`: all `(bullet index, enemy index)`
pairs within collision distance.  One score increment, one bullet despawn and
one enemy despawn are issued per pair; the despawns are deferred, so later
pairs are still evaluated. -/
def bulletPairsAux : Nat → List Vec2 → List Enemy → List (Nat × Nat)
  | _, [], _ => []
  | i, b :: bs, es => (hitIdxsAux b 0 es).map (fun j => (i, j)) ++ bulletPairsAux (i + 1) bs es

/-- All colliding (bullet, enemy) index pairs of `bullet_hit_enemy`. -/
def bulletEnemyHits (bs : List Vec2) (es : List Enemy) : List (Nat × Nat) :=
  bulletPairsAux 0 bs es

/-- `bullet_bounds`: indices of bullets with `y > H - r_b` (despawned,
deferred). -/
def oobIdxsAux (h : ℚ) : Nat → List Vec2 → List Nat
  | _, [] => []
  | i, b :: bs =>
      if h - BULLET_SIZE / 2 < b.y then i :: oobIdxsAux h (i + 1) bs
      else oobIdxsAux h (i + 1) bs

/-- Apply a deferred set of despawns, given as indices into the frame's
stable entity list. -/
def removeIdxsAux (ds : List Nat) : Nat → List α → List α
  | _, [] => []
  | i, a :: l =>
      if ds.contains i then removeIdxsAux ds (i + 1) l else a :: removeIdxsAux ds (i + 1) l

/-- Apply a deferred set of despawns to an entity list. -/
def removeIdxs (l : List α) (ds : List Nat) : List α := removeIdxsAux ds 0 l

/-- `bullet_movement`: every bullet travels in `+y`. -/
def bullet_movement (env : Env) (bs : List Vec2) : List Vec2 :=
  bs.map (fun b => Vec2.add b (Vec2.scale (BULLET_SPEED * env.dt) ⟨0, 1⟩))

/-- `bullet_spawn`: on a fire edge, if there is exactly one player, a bullet
is spawned (deferred) at the player's current (post-`player_bounds`)
position. -/
def bullet_spawn (env : Env) (ps : List Vec2) : List Vec2 :=
  if env.keySpace then
    match getSingle ps with
    | some p => [p]
    | none => []
  else []

/-- Player list after the in-frame mutations (`player_movement` then
`player_bounds`, ordered by `.after`). -/
def midPlayers (env : Env) (w : World) : List Vec2 :=
  player_bounds env (player_movement env w.players)

/-- Enemy list after the in-frame mutations (`enemy_movement`,
`enemy_bounds`, `enemy_direction`, ordered by `.after`). -/
def midEnemies (env : Env) (w : World) : List Enemy :=
  enemy_direction env (enemy_bounds env (enemy_movement env w.enemies))

/-- Bullet list after `bullet_movement`. -/
def midBullets (env : Env) (w : World) : List Vec2 :=
  bullet_movement env w.bullets

/-- One pass of the gated Update systems (those behind
`run_if(in_state(AppState::Game)).run_if(in_state(SimulationState::Running))`),
with all `Commands` applied at the end.  Both collision passes observe the
same post-movement, pre-despawn entity lists.  Returns the resulting world
and whether a `GameOver` event was emitted (read by `handle_game_over` in
the same frame). -/
def stepGame (env : Env) (w : World) : World × Bool :=
  let ps := midPlayers env w
  let es := midEnemies env w
  let bs := midBullets env w
  let hit := enemy_hit_player ps es
  let pairs := bulletEnemyHits bs es
  let oob := oobIdxsAux env.winH 0 bs
  let spawned := bullet_spawn env ps
  ⟨{ players := if hit.isSome then [] else ps
     enemies := removeIdxs es (hit.toList ++ pairs.map Prod.snd)
     bullets := removeIdxs bs (oob ++ pairs.map Prod.fst) ++ spawned
     score := w.score + pairs.length }, hit.isSome⟩

/-- The `OnExit(AppState::Game)` hook `despawn_entities`: despawns the player
(when exactly one exists) and every enemy.  Bullets are not queried and are
left alive. -/
def despawn_entities (w : World) : World :=
  { w with
    players := match getSingle w.players with
      | some _ => []
      | none => w.players
    enemies := [] }

/-- `spawn_player` (`OnEnter(AppState::Game)`): one player at the window
centre. -/
def spawn_player (env : Env) (ps : List Vec2) : List Vec2 :=
  ps ++ [⟨env.winW / 2, env.winH / 2⟩]

/-- `spawn_enemies` (`OnEnter(AppState::Game)`): one row of `ENEMY_PER_ROW`
enemies; `Vec2::new(1.0, 0.0).normalize()` is exactly `(1, 0)`. -/
def spawn_enemies (env : Env) (es : List Enemy) : List Enemy :=
  es ++ (List.range ENEMY_PER_ROW).map (fun i =>
    { pos := ⟨GAMEAREA_PADDING + ENEMY_SPACING * (i : ℚ), env.winH - GAMEAREA_PADDING⟩
      direction := ⟨1, 0⟩
      row := 0
      col := i })

/-- The `apply_state_transition` tail of a frame for `AppState`: if the frame
leaves `Game`, the `OnExit(Game)` hook `despawn_entities` runs; if it enters
`Game`, the `OnEnter(Game)` hooks `spawn_player` and `spawn_enemies` run.
`appBefore` is the state the frame ran in, `appAfter` the applied `NextState`. -/
def applyTransition (env : Env) (appBefore appAfter : AppState) (w : World) : World :=
  let w2 := if appBefore = AppState.Game ∧ appAfter ≠ AppState.Game then
      despawn_entities w
    else w
  if appBefore ≠ AppState.Game ∧ appAfter = AppState.Game then
    { w2 with players := spawn_player env w2.players, enemies := spawn_enemies env w2.enemies }
  else w2

/-- One frame of the schedule:
`toggle_appstate`; `toggle_simulation` (gated on `AppState::Game`); the gated
game systems; then the deferred `NextState` transitions with their
`OnExit(Game)` / `OnEnter(Game)` hooks.  A later `insert_resource(NextState)`
overwrites an earlier one in the same frame, which is why the `MainMenu`
request of `handle_game_over` takes precedence and why `toggle_simulation`
can overwrite the `Paused` request of `toggle_appstate`. -/
def step (env : Env) (s : GState) : GState :=
  let tApp : Option AppState :=
    if env.keyG then
      if s.app = AppState.MainMenu then some AppState.Game
      else if s.app = AppState.Game then some AppState.MainMenu
      else none
    else none
  let tSim1 : Option SimulationState :=
    if env.keyG then some SimulationState.Paused else none
  let tSim : Option SimulationState :=
    if s.app = AppState.Game ∧ env.keyP then
      some (if s.sim = SimulationState.Running then SimulationState.Paused
            else SimulationState.Running)
    else tSim1
  let r := if s.app = AppState.Game ∧ s.sim = SimulationState.Running then
      stepGame env s.world
    else (s.world, false)
  let nApp : Option AppState := if r.2 then some AppState.MainMenu else tApp
  let app2 := nApp.getD s.app
  ⟨app2, (tSim.getD s.sim), applyTransition env s.app app2 r.1⟩

/-- Number of projectile-adversary resolutions of one frame (zero when the
gated systems do not run). -/
def frameHits (env : Env) (s : GState) : Nat :=
  if s.app = AppState.Game ∧ s.sim = SimulationState.Running then
    (bulletEnemyHits (midBullets env s.world) (midEnemies env s.world)).length
  else 0

/-- The initial state: `AppState` and `SimulationState` from their `#[default]`
variants, `Score` from `#[derive(Default)]`, no entities. -/
def initialState : GState :=
  ⟨AppState.MainMenu, SimulationState.Paused, ⟨[], [], [], 0⟩⟩

/-- The claim's player containment predicate:
position within `[r_p, W - r_p] × [r_p, H - r_p]`. -/
def playerInBounds (w h : ℚ) (p : Vec2) : Prop :=
  PLAYER_SIZE / 2 ≤ p.x ∧ p.x ≤ w - PLAYER_SIZE / 2 ∧
  PLAYER_SIZE / 2 ≤ p.y ∧ p.y ≤ h - PLAYER_SIZE / 2

/-- The claim's adversary lane predicate, with the column arithmetic carried
out in `ℚ` exactly as the spec writes it:
`x ∈ [pad + c·spacing + r_e, W - pad - (N_COLS - c - 1)·spacing - r_e]`. -/
def enemyLaneSpec (w : ℚ) (e : Enemy) : Prop :=
  GAMEAREA_PADDING + ENEMY_SPACING * (e.col : ℚ) + ENEMY_SIZE / 2 ≤ e.pos.x ∧
  e.pos.x ≤ w - GAMEAREA_PADDING - ENEMY_SPACING * ((ENEMY_PER_ROW : ℚ) - (e.col : ℚ) - 1)
    - ENEMY_SIZE / 2

/-! ## General lemmas about the pipeline stages -/

theorem clampQ_mem {lo hi : ℚ} (x : ℚ) (h : lo ≤ hi) :
    lo ≤ clampQ lo hi x ∧ clampQ lo hi x ≤ hi := by
  unfold clampQ
  split_ifs with h1 h2
  · exact ⟨le_refl lo, h⟩
  · exact ⟨h, le_refl hi⟩
  · exact ⟨le_of_not_lt h1, le_of_not_lt h2⟩

theorem clampQ_id {lo hi x : ℚ} (h1 : lo ≤ x) (h2 : x ≤ hi) : clampQ lo hi x = x := by
  unfold clampQ
  rw [if_neg (not_lt.mpr h1), if_neg (not_lt.mpr h2)]

theorem mem_removeIdxsAux {α : Type} {ds : List Nat} {l : List α} {a : α} :
    ∀ i, a ∈ removeIdxsAux ds i l → a ∈ l := by
  induction l with
  | nil => intro i h; exact absurd h (by simp [removeIdxsAux])
  | cons b t ih =>
      intro i h
      unfold removeIdxsAux at h
      split_ifs at h with hc
      · exact List.mem_cons_of_mem b (ih (i + 1) h)
      · rcases List.mem_cons.mp h with h1 | h1
        · exact h1 ▸ List.mem_cons_self b t
        · exact List.mem_cons_of_mem b (ih (i + 1) h1)

theorem mem_removeIdxs {α : Type} {ds : List Nat} {l : List α} {a : α}
    (h : a ∈ removeIdxs l ds) : a ∈ l :=
  mem_removeIdxsAux 0 h

theorem removeIdxsAux_nil {α : Type} (l : List α) : ∀ i, removeIdxsAux [] i l = l := by
  induction l with
  | nil => intro i; rfl
  | cons b t ih => intro i; simp [removeIdxsAux, ih]

theorem player_movement_length (env : Env) (ps : List Vec2) :
    (player_movement env ps).length = ps.length := by
  unfold player_movement
  split <;> rfl

theorem player_bounds_length (env : Env) (ps : List Vec2) :
    (player_bounds env ps).length = ps.length := by
  unfold player_bounds
  split <;> rfl

theorem midPlayers_length (env : Env) (w : World) :
    (midPlayers env w).length = w.players.length := by
  unfold midPlayers
  rw [player_bounds_length, player_movement_length]

theorem enemy_movement_one_col (env : Env) (e : Enemy) :
    (enemy_movement_one env e).col = e.col := rfl

theorem enemy_bounds_one_col (w : ℚ) (e : Enemy) : (enemy_bounds_one w e).col = e.col := rfl

theorem enemy_direction_one_col (w : ℚ) (e : Enemy) :
    (enemy_direction_one w e).col = e.col := by
  unfold enemy_direction_one
  split <;> rfl

theorem enemy_direction_one_pos (w : ℚ) (e : Enemy) :
    (enemy_direction_one w e).pos = e.pos := by
  unfold enemy_direction_one
  split <;> rfl

/-- Every enemy surviving the in-frame mutations descends from an enemy of the
start-of-frame world: same column, and its `x` is the lane clamp of its
post-movement `x`. -/
theorem midEnemies_shape (env : Env) (w : World) (e : Enemy)
    (h : e ∈ midEnemies env w) :
    ∃ e0 ∈ w.enemies, e.col = e0.col ∧
      e.pos.x = clampQ (enemyXMin e0.col) (enemyXMax env.winW e0.col)
        (enemy_movement_one env e0).pos.x := by
  unfold midEnemies enemy_direction enemy_bounds enemy_movement at h
  rcases List.mem_map.mp h with ⟨e2, h2, he2⟩
  rcases List.mem_map.mp h2 with ⟨e1, h1, he1⟩
  rcases List.mem_map.mp h1 with ⟨e0, h0, he0⟩
  refine ⟨e0, h0, ?_, ?_⟩
  · rw [← he2, ← he1, ← he0, enemy_direction_one_col, enemy_bounds_one_col,
      enemy_movement_one_col]
  · rw [← he2, enemy_direction_one_pos, ← he1]
    have hcol : e1.col = e0.col := by rw [← he0, enemy_movement_one_col]
    rw [show (enemy_bounds_one env.winW e1).pos.x
          = clampQ (enemyXMin e1.col) (enemyXMax env.winW e1.col) e1.pos.x from rfl,
      hcol, ← he0]

theorem stepGame_score (env : Env) (w : World) :
    (stepGame env w).1.score
      = w.score + (bulletEnemyHits (midBullets env w) (midEnemies env w)).length := rfl

theorem despawn_entities_score (w : World) : (despawn_entities w).score = w.score := rfl

theorem despawn_entities_bullets (w : World) : (despawn_entities w).bullets = w.bullets := rfl

theorem despawn_entities_enemies (w : World) : (despawn_entities w).enemies = [] := rfl

theorem applyTransition_cases (env : Env) (a b : AppState) (w : World) :
    applyTransition env a b w = w ∨ applyTransition env a b w = despawn_entities w ∨
    applyTransition env a b w
      = { w with players := spawn_player env w.players, enemies := spawn_enemies env w.enemies } := by
  by_cases hA : a = AppState.Game
  · have hEnter : ¬(a ≠ AppState.Game ∧ b = AppState.Game) := fun hc => hc.1 hA
    simp only [applyTransition, if_neg hEnter]
    split_ifs
    · right; left; rfl
    · left; rfl
  · have hExit : ¬(a = AppState.Game ∧ b ≠ AppState.Game) := fun hc => hA hc.1
    simp only [applyTransition, if_neg hExit]
    split_ifs
    · right; right; rfl
    · left; rfl

theorem applyTransition_score (env : Env) (a b : AppState) (w : World) :
    (applyTransition env a b w).score = w.score := by
  obtain h | h | h := applyTransition_cases env a b w <;> simp [h, despawn_entities]

theorem applyTransition_bullets (env : Env) (a b : AppState) (w : World) :
    (applyTransition env a b w).bullets = w.bullets := by
  obtain h | h | h := applyTransition_cases env a b w <;> simp [h, despawn_entities]

/-- `step` unpacked: its world is the transition hooks applied to the world
produced by the (gated) Update systems. -/
theorem step_world (env : Env) (s : GState) :
    (step env s).world
      = applyTransition env s.app (step env s).app
          ((if s.app = AppState.Game ∧ s.sim = SimulationState.Running then stepGame env s.world
            else (s.world, false)).1) := rfl

theorem step_score (env : Env) (s : GState) :
    (step env s).world.score = s.world.score + frameHits env s := by
  unfold frameHits
  rw [step_world]
  by_cases hg : s.app = AppState.Game ∧ s.sim = SimulationState.Running
  · simp only [if_pos hg, applyTransition_score, stepGame_score]
  · simp only [if_neg hg, applyTransition_score]; rfl

/-- C6: within a run the score never decreases across a frame, and one frame
adds exactly one point per resolved projectile-adversary collision
(`frameHits`, the number of colliding (bullet, enemy) pairs scanned by
`bullet_hit_enemy` in that frame). -/
theorem c6_score_monotone (env : Env) (s : GState) :
    s.world.score ≤ (step env s).world.score ∧
    (step env s).world.score = s.world.score + frameHits env s :=
  ⟨by rw [step_score]; exact Nat.le_add_right _ _, step_score env s⟩

/-- C9: the containment clamp is idempotent: a player position already inside
the player bounds and an adversary (of any column) already inside its lane are
left unchanged by the containment stage. -/
theorem c9_clamp_idempotent (env : Env) (p : Vec2) (e : Enemy)
    (hp : playerInBounds env.winW env.winH p)
    (he : enemyXMin e.col ≤ e.pos.x ∧ e.pos.x ≤ enemyXMax env.winW e.col) :
    player_bounds env [p] = [p] ∧ enemy_bounds env [e] = [e] := by
  obtain ⟨h1, h2, h3, h4⟩ := hp
  constructor
  · have hb : player_bounds env [p]
        = [⟨clampQ (PLAYER_SIZE / 2) (env.winW - PLAYER_SIZE / 2) p.x,
            clampQ (PLAYER_SIZE / 2) (env.winH - PLAYER_SIZE / 2) p.y⟩] := rfl
    rw [hb, clampQ_id h1 h2, clampQ_id h3 h4]
  · have hb : enemy_bounds env [e]
        = [{ e with pos := ⟨clampQ (enemyXMin e.col) (enemyXMax env.winW e.col) e.pos.x,
                            e.pos.y⟩ }] := rfl
    rw [hb, clampQ_id he.1 he.2]

theorem c9_clamp_idempotent_witness :
    player_bounds ⟨1280, 720, 0, 0, false, false, false, false, false, false, false⟩
        [⟨640, 360⟩] = [⟨640, 360⟩] ∧
    enemy_bounds ⟨1280, 720, 0, 0, false, false, false, false, false, false, false⟩
        [⟨⟨400, 640⟩, ⟨1, 0⟩, 0, 2⟩] = [⟨⟨400, 640⟩, ⟨1, 0⟩, 0, 2⟩] :=
  c9_clamp_idempotent _ _ _
    (by norm_num [playerInBounds, PLAYER_SIZE])
    (by norm_num [enemyXMin, enemyXMax, GAMEAREA_PADDING, ENEMY_SPACING, ENEMY_SIZE,
      ENEMY_PER_ROW])

/-- C5: in a frame executed while `SimulationState` is `Paused` — whatever the
keys, `Δt` and window — the score is unchanged, the bullet list is untouched,
and the player / enemy lists are either untouched, emptied wholesale by the
exit-`Game` despawn hook, or extended by the enter-`Game` spawn hooks; in
particular the position of every entity alive before and after the frame is
unchanged, and no movement, collision or scoring system runs. -/
theorem c5_paused_frame (env : Env) (s : GState)
    (h : s.sim = SimulationState.Paused) :
    (step env s).world.score = s.world.score ∧
    (step env s).world.bullets = s.world.bullets ∧
    ((step env s).world.players = s.world.players ∨ (step env s).world.players = [] ∨
      (step env s).world.players = spawn_player env s.world.players) ∧
    ((step env s).world.enemies = s.world.enemies ∨ (step env s).world.enemies = [] ∨
      (step env s).world.enemies = spawn_enemies env s.world.enemies) := by
  have hg : ¬(s.app = AppState.Game ∧ s.sim = SimulationState.Running) := by
    rw [h]; rintro ⟨-, h2⟩; cases h2
  rw [step_world, if_neg hg]
  obtain hcase | hcase | hcase := applyTransition_cases env s.app (step env s).app s.world <;>
    rw [hcase]
  · exact ⟨rfl, rfl, Or.inl rfl, Or.inl rfl⟩
  · refine ⟨rfl, rfl, ?_, Or.inr (Or.inl rfl)⟩
    rcases hgs : getSingle s.world.players with - | q
    · left; simp [despawn_entities, hgs]
    · right; left; simp [despawn_entities, hgs]
  · exact ⟨rfl, rfl, Or.inr (Or.inr rfl), Or.inr (Or.inr rfl)⟩

theorem c5_paused_frame_witness :
    (step ⟨1280, 720, 1, 0, true, true, true, true, true, false, false⟩
        ⟨AppState.Game, SimulationState.Paused, ⟨[⟨640, 360⟩], [], [⟨10, 10⟩], 3⟩⟩).world.score = 3 ∧
    (step ⟨1280, 720, 1, 0, true, true, true, true, true, false, false⟩
        ⟨AppState.Game, SimulationState.Paused, ⟨[⟨640, 360⟩], [], [⟨10, 10⟩], 3⟩⟩).world.bullets
      = [⟨10, 10⟩] :=
  ⟨(c5_paused_frame _ _ rfl).1, (c5_paused_frame _ _ rfl).2.1⟩

theorem mm_ne_game : ¬(AppState.MainMenu = AppState.Game) := by decide

theorem game_ne_mm : ¬(AppState.Game = AppState.MainMenu) := by decide

theorem mm_ne_go : ¬(AppState.MainMenu = AppState.GameOver) := by decide

theorem paused_ne_running : ¬(SimulationState.Paused = SimulationState.Running) := by decide

theorem running_ne_paused : ¬(SimulationState.Running = SimulationState.Paused) := by decide

/-- C7: entering `Game` from the initial state with a 1280x720 window spawns
exactly one player at `(640, 360)` and exactly `ENEMY_PER_ROW = 4` adversaries
at `(80, 640)`, `(200, 640)`, `(320, 640)`, `(440, 640)`, all with direction
`(+1, 0)` (row `0`, columns `0..3`), and the toggle leaves the simulation
`Paused`. -/
theorem c7_enter_game (env : Env) (h1 : env.winW = 1280) (h2 : env.winH = 720)
    (hg : env.keyG = true) :
    step env initialState
      = ⟨AppState.Game, SimulationState.Paused,
          ⟨[⟨640, 360⟩],
           [⟨⟨80, 640⟩, ⟨1, 0⟩, 0, 0⟩, ⟨⟨200, 640⟩, ⟨1, 0⟩, 0, 1⟩,
            ⟨⟨320, 640⟩, ⟨1, 0⟩, 0, 2⟩, ⟨⟨440, 640⟩, ⟨1, 0⟩, 0, 3⟩], [], 0⟩⟩ := by
  norm_num [step, initialState, applyTransition, despawn_entities, spawn_player,
    spawn_enemies, getSingle, hg, h1, h2, GAMEAREA_PADDING, ENEMY_SPACING, ENEMY_PER_ROW,
    List.range_succ, mm_ne_game, game_ne_mm, paused_ne_running]

theorem clamp_to_min {lo hi x : ℚ} (hle : lo ≤ hi) (hx : x ≤ lo) : clampQ lo hi x = lo := by
  unfold clampQ
  split_ifs with h1 h2
  · rfl
  · linarith
  · linarith

/-- C8 (amended): the lane bounds of column 0 at `W = 1280` are exactly
`[131, 789]`; for a frame with `V_enemy·Δt ≤ 51` the adversary starting at
`x = 80` with direction `(+1, 0)` is clamped to `x = 131` and its direction is
flipped to `(-1, 0)` by steering in that same frame; and in general any
adversary whose clamped `x` equals its lane's `x_min` or `x_max` exactly has
the sign of `direction.x` flipped. -/
theorem c8_wall_bounce (dt : ℚ) (h1 : ENEMY_SPEED * dt ≤ 51) :
    enemyXMin 0 = 131 ∧ enemyXMax 1280 0 = 789 ∧
    step ⟨1280, 720, dt, 0, false, false, false, false, false, false, false⟩
        ⟨AppState.Game, SimulationState.Running, ⟨[], [⟨⟨80, 640⟩, ⟨1, 0⟩, 0, 0⟩], [], 0⟩⟩
      = ⟨AppState.Game, SimulationState.Running,
          ⟨[], [⟨⟨131, 640⟩, ⟨-1, 0⟩, 0, 0⟩], [], 0⟩⟩ ∧
    (∀ (w : ℚ) (e : Enemy),
      e.pos.x = enemyXMin e.col ∨ e.pos.x = enemyXMax w e.col →
      (enemy_direction_one w e).direction.x = -e.direction.x) := by
  have hXMin : enemyXMin 0 = 131 := by
    norm_num [enemyXMin, GAMEAREA_PADDING, ENEMY_SPACING, ENEMY_SIZE]
  have hXMax : enemyXMax 1280 0 = 789 := by
    norm_num [enemyXMax, GAMEAREA_PADDING, ENEMY_SPACING, ENEMY_SIZE, ENEMY_PER_ROW]
  refine ⟨hXMin, hXMax, ?_, ?_⟩
  · have hsp : ENEMY_SPEED = (1000 : ℚ) := rfl
    have hm1 : enemy_movement_one
          ⟨1280, 720, dt, 0, false, false, false, false, false, false, false⟩
          ⟨⟨80, 640⟩, ⟨1, 0⟩, 0, 0⟩
        = ⟨⟨80 + 1000 * dt, 640⟩, ⟨1, 0⟩, 0, 0⟩ := by
      simp only [enemy_movement_one, Vec2.add, Vec2.scale, hsp]
      norm_num
    have hm2 : enemy_bounds_one (1280 : ℚ) (⟨⟨80 + 1000 * dt, 640⟩, ⟨1, 0⟩, 0, 0⟩ : Enemy)
        = ⟨⟨131, 640⟩, ⟨1, 0⟩, 0, 0⟩ := by
      simp only [enemy_bounds_one]
      rw [clamp_to_min (by rw [hXMin, hXMax]; norm_num) (by rw [hXMin]; rw [hsp] at h1; linarith), hXMin]
    have hm3 : enemy_direction_one (1280 : ℚ) (⟨⟨131, 640⟩, ⟨1, 0⟩, 0, 0⟩ : Enemy)
        = ⟨⟨131, 640⟩, ⟨-1, 0⟩, 0, 0⟩ := by
      unfold enemy_direction_one
      rw [if_pos (Or.inl (by rw [hXMin]))]
    have hmid : midEnemies ⟨1280, 720, dt, 0, false, false, false, false, false, false, false⟩
          ⟨[], [⟨⟨80, 640⟩, ⟨1, 0⟩, 0, 0⟩], [], 0⟩
        = [⟨⟨131, 640⟩, ⟨-1, 0⟩, 0, 0⟩] := by
      unfold midEnemies enemy_movement enemy_bounds enemy_direction
      simp only [List.map_cons, List.map_nil]
      rw [hm1, hm2, hm3]
    have hsg : stepGame ⟨1280, 720, dt, 0, false, false, false, false, false, false, false⟩
          ⟨[], [⟨⟨80, 640⟩, ⟨1, 0⟩, 0, 0⟩], [], 0⟩
        = (⟨[], [⟨⟨131, 640⟩, ⟨-1, 0⟩, 0, 0⟩], [], 0⟩, false) := by
      simp only [stepGame, hmid, midPlayers, midBullets, player_movement, player_bounds,
        bullet_movement, List.map_nil, enemy_hit_player, getSingle, bulletEnemyHits,
        bulletPairsAux, oobIdxsAux, bullet_spawn]
      norm_num [removeIdxsAux_nil, removeIdxs]
    simp only [step, hsg]
    norm_num [applyTransition]
  · intro w e h
    unfold enemy_direction_one
    rw [if_pos h]

theorem c7_enter_game_witness :
    step ⟨1280, 720, 1/60, 0, false, false, false, false, false, true, false⟩ initialState
      = ⟨AppState.Game, SimulationState.Paused,
          ⟨[⟨640, 360⟩],
           [⟨⟨80, 640⟩, ⟨1, 0⟩, 0, 0⟩, ⟨⟨200, 640⟩, ⟨1, 0⟩, 0, 1⟩,
            ⟨⟨320, 640⟩, ⟨1, 0⟩, 0, 2⟩, ⟨⟨440, 640⟩, ⟨1, 0⟩, 0, 3⟩], [], 0⟩⟩ :=
  c7_enter_game _ rfl rfl rfl

theorem c8_wall_bounce_witness :
    enemyXMin 0 = 131 ∧ enemyXMax 1280 0 = 789 ∧
    step ⟨1280, 720, 1/100, 0, false, false, false, false, false, false, false⟩
        ⟨AppState.Game, SimulationState.Running, ⟨[], [⟨⟨80, 640⟩, ⟨1, 0⟩, 0, 0⟩], [], 0⟩⟩
      = ⟨AppState.Game, SimulationState.Running,
          ⟨[], [⟨⟨131, 640⟩, ⟨-1, 0⟩, 0, 0⟩], [], 0⟩⟩ :=
  ⟨(c8_wall_bounce (1/100) (by norm_num [ENEMY_SPEED])).1,
   (c8_wall_bounce (1/100) (by norm_num [ENEMY_SPEED])).2.1,
   (c8_wall_bounce (1/100) (by norm_num [ENEMY_SPEED])).2.2.1⟩

/-- C8 counterexample: with `Δt = 0.06` the same adversary's first frame ends
at `x = 140`, strictly inside the lane — containment does not set `x` to `131`
on the first frame and steering does not flip the direction. -/
theorem c8_wall_bounce_cex :
    (step ⟨1280, 720, 3/50, 0, false, false, false, false, false, false, false⟩
        ⟨AppState.Game, SimulationState.Running,
          ⟨[], [⟨⟨80, 640⟩, ⟨1, 0⟩, 0, 0⟩], [], 0⟩⟩).world.enemies
      = [⟨⟨140, 640⟩, ⟨1, 0⟩, 0, 0⟩] ∧
    ¬ (step ⟨1280, 720, 3/50, 0, false, false, false, false, false, false, false⟩
        ⟨AppState.Game, SimulationState.Running,
          ⟨[], [⟨⟨80, 640⟩, ⟨1, 0⟩, 0, 0⟩], [], 0⟩⟩).world.enemies
      = [⟨⟨131, 640⟩, ⟨-1, 0⟩, 0, 0⟩] := by
  have h : (step ⟨1280, 720, 3/50, 0, false, false, false, false, false, false, false⟩
      ⟨AppState.Game, SimulationState.Running,
        ⟨[], [⟨⟨80, 640⟩, ⟨1, 0⟩, 0, 0⟩], [], 0⟩⟩).world.enemies
      = [⟨⟨140, 640⟩, ⟨1, 0⟩, 0, 0⟩] := by
    norm_num [step, stepGame, applyTransition, midPlayers, midEnemies, midBullets,
      player_movement, player_bounds, enemy_movement, enemy_bounds, enemy_direction,
      enemy_movement_one, enemy_bounds_one, enemy_direction_one,
      bullet_movement, bullet_spawn, enemy_hit_player, findHitAux, playerHits, bulletHits,
      dist2, bulletEnemyHits, bulletPairsAux, oobIdxsAux, removeIdxs, removeIdxsAux,
      getSingle, despawn_entities, spawn_player, spawn_enemies, clampQ, enemyXMin,
      enemyXMax, rawDir, normDir, Vec2.add, Vec2.scale, GAMEAREA_PADDING, ENEMY_SPACING,
      ENEMY_PER_ROW, ENEMY_SIZE, ENEMY_SPEED, PLAYER_SIZE, PLAYER_SPEED, BULLET_SIZE,
      BULLET_SPEED, mm_ne_game, game_ne_mm, paused_ne_running, running_ne_paused]
  refine ⟨h, ?_⟩
  rw [h]
  norm_num

theorem applyTransition_from_game (env : Env) (b : AppState) (w : World) :
    applyTransition env AppState.Game b w = w ∨
    applyTransition env AppState.Game b w = despawn_entities w := by
  have hEnter : ¬(AppState.Game ≠ AppState.Game ∧ b = AppState.Game) := fun hc => hc.1 rfl
  simp only [applyTransition, if_neg hEnter]
  split_ifs
  · right; rfl
  · left; rfl

theorem applyTransition_exit (env : Env) {a b : AppState} (w : World)
    (ha : a = AppState.Game) (hb : b ≠ AppState.Game) :
    applyTransition env a b w = despawn_entities w := by
  subst ha
  have hEnter : ¬(AppState.Game ≠ AppState.Game ∧ b = AppState.Game) := fun hc => hc.1 rfl
  simp only [applyTransition, if_neg hEnter]
  split_ifs with h
  · rfl
  · exact absurd ⟨by trivial, hb⟩ h

theorem despawn_players_of_len (w : World) (h : w.players.length ≤ 1) :
    (despawn_entities w).players = [] := by
  rcases hw : w.players with - | ⟨a, t⟩
  · simp [despawn_entities, hw, getSingle]
  · rcases t with - | ⟨b2, t2⟩
    · simp [despawn_entities, hw, getSingle]
    · rw [hw] at h; simp at h

theorem stepGame_snd (env : Env) (w : World) :
    (stepGame env w).2 = (enemy_hit_player (midPlayers env w) (midEnemies env w)).isSome := rfl

theorem stepGame_players (env : Env) (w : World) :
    (stepGame env w).1.players = [] ∨ (stepGame env w).1.players = midPlayers env w := by
  by_cases h : (enemy_hit_player (midPlayers env w) (midEnemies env w)).isSome
  · left; simp only [stepGame]; rw [if_pos h]
  · right; simp only [stepGame]; rw [if_neg h]

theorem stepGame_players_of_hit (env : Env) (w : World)
    (h : (enemy_hit_player (midPlayers env w) (midEnemies env w)).isSome) :
    (stepGame env w).1.players = [] := by
  simp only [stepGame]; rw [if_pos h]

theorem stepGame_enemies (env : Env) (w : World) (e : Enemy)
    (h : e ∈ (stepGame env w).1.enemies) : e ∈ midEnemies env w := by
  simp only [stepGame] at h
  exact mem_removeIdxs h

/-- The world the gated systems produced, before the transition hooks. -/
theorem step_r1_players_len (env : Env) (s : GState) (hLen : s.world.players.length ≤ 1) :
    ((if s.app = AppState.Game ∧ s.sim = SimulationState.Running then stepGame env s.world
      else (s.world, false)).1).players.length ≤ 1 := by
  split_ifs with h
  · obtain h1 | h1 := stepGame_players env s.world
    · rw [h1]; exact Nat.zero_le 1
    · rw [h1, midPlayers_length]; exact hLen
  · exact hLen

/-- C1 counterexample: a frame that leaves `Game` (G pressed while paused in
`Game`) with one live projectile: the transition to `MainMenu` happens but the
projectile survives it, contradicting the claim that no entity of the three
kinds survives into the next state. -/
theorem c1_despawn_cex :
    (step ⟨1280, 720, 0, 0, false, false, false, false, false, true, false⟩
        ⟨AppState.Game, SimulationState.Paused, ⟨[], [], [⟨5, 5⟩], 0⟩⟩).app
      = AppState.MainMenu ∧
    (step ⟨1280, 720, 0, 0, false, false, false, false, false, true, false⟩
        ⟨AppState.Game, SimulationState.Paused, ⟨[], [], [⟨5, 5⟩], 0⟩⟩).world.bullets
      = [⟨5, 5⟩] := by
  norm_num [step, stepGame, applyTransition, midPlayers, midEnemies, midBullets,
    player_movement, player_bounds, enemy_movement, enemy_bounds, enemy_direction,
    bullet_movement, bullet_spawn, enemy_hit_player, findHitAux, bulletEnemyHits,
    bulletPairsAux, oobIdxsAux, removeIdxs, removeIdxsAux, getSingle, despawn_entities,
    spawn_player, spawn_enemies, mm_ne_game, game_ne_mm, paused_ne_running,
    running_ne_paused]

/-- C1 (amended): on every frame that transitions `AppState` out of `Game`
(in any state with at most one living player, as in every reachable state),
all living players and all living adversaries are despawned by the exit hook;
projectiles are not queried by `despawn_entities` and survive. -/
theorem c1_exit_despawns_players_enemies (env : Env) (s : GState)
    (hApp : s.app = AppState.Game) (hExit : (step env s).app ≠ AppState.Game)
    (hLen : s.world.players.length ≤ 1) :
    (step env s).world.players = [] ∧ (step env s).world.enemies = [] := by
  rw [step_world, applyTransition_exit env _ hApp hExit]
  exact ⟨despawn_players_of_len _ (step_r1_players_len env s hLen),
    despawn_entities_enemies _⟩

theorem c1_exit_despawns_witness :
    (step ⟨1280, 720, 0, 0, false, false, false, false, false, true, false⟩
        ⟨AppState.Game, SimulationState.Paused, ⟨[⟨9, 9⟩], [⟨⟨131, 640⟩, ⟨1, 0⟩, 0, 0⟩], [], 0⟩⟩).world.players
      = [] ∧
    (step ⟨1280, 720, 0, 0, false, false, false, false, false, true, false⟩
        ⟨AppState.Game, SimulationState.Paused, ⟨[⟨9, 9⟩], [⟨⟨131, 640⟩, ⟨1, 0⟩, 0, 0⟩], [], 0⟩⟩).world.enemies
      = [] :=
  c1_exit_despawns_players_enemies _ _ rfl
    (by norm_num [step, stepGame, applyTransition, midPlayers, midEnemies, midBullets,
      player_movement, player_bounds, enemy_movement, enemy_bounds, enemy_direction,
      bullet_movement, bullet_spawn, enemy_hit_player, findHitAux, bulletEnemyHits,
      bulletPairsAux, oobIdxsAux, removeIdxs, removeIdxsAux, getSingle, despawn_entities,
      spawn_player, spawn_enemies, mm_ne_game, game_ne_mm, paused_ne_running,
      running_ne_paused])
    (by norm_num)

/-- C2 counterexample: in `Game`/`Running` with no key pressed, an adversary
touching the player triggers `GameOver`; the frame returns `AppState` to
`MainMenu` but `SimulationState` stays `Running`, not `Paused`
(`handle_game_over` never writes `NextState<SimulationState>`). -/
theorem c2_gameover_cex :
    (step ⟨1280, 720, 0, 0, false, false, false, false, false, false, false⟩
        ⟨AppState.Game, SimulationState.Running,
          ⟨[⟨45, 45⟩], [⟨⟨131, 40⟩, ⟨1, 0⟩, 0, 0⟩], [], 7⟩⟩).app = AppState.MainMenu ∧
    (step ⟨1280, 720, 0, 0, false, false, false, false, false, false, false⟩
        ⟨AppState.Game, SimulationState.Running,
          ⟨[⟨45, 45⟩], [⟨⟨131, 40⟩, ⟨1, 0⟩, 0, 0⟩], [], 7⟩⟩).sim
      = SimulationState.Running := by
  norm_num [step, stepGame, applyTransition, midPlayers, midEnemies, midBullets,
    player_movement, player_bounds, enemy_movement, enemy_bounds, enemy_direction,
    enemy_movement_one, enemy_bounds_one, enemy_direction_one,
    bullet_movement, bullet_spawn, enemy_hit_player, findHitAux, playerHits, bulletHits,
    dist2, bulletEnemyHits, bulletPairsAux, oobIdxsAux, removeIdxs, removeIdxsAux,
    getSingle, despawn_entities, spawn_player, spawn_enemies, clampQ, enemyXMin,
    enemyXMax, rawDir, normDir, Vec2.add, Vec2.scale, GAMEAREA_PADDING, ENEMY_SPACING,
    ENEMY_PER_ROW, ENEMY_SIZE, ENEMY_SPEED, PLAYER_SIZE, PLAYER_SPEED, BULLET_SIZE,
    BULLET_SPEED, mm_ne_game, game_ne_mm, paused_ne_running, running_ne_paused]

/-- C2 (amended): a G-key toggle (with P not pressed) forces
`SimulationState` to `Paused` whatever else happens in the frame; with neither
G nor P pressed, `SimulationState` is unchanged by the frame — in particular
the `GameOver`-driven return to `MainMenu` leaves it `Running`. -/
theorem c2_transition_pause (env : Env) (s : GState) :
    (env.keyG = true → env.keyP = false → (step env s).sim = SimulationState.Paused) ∧
    (env.keyG = false → env.keyP = false → (step env s).sim = s.sim) := by
  constructor <;> intro hG hP <;> simp [step, hG, hP]

theorem c2_transition_pause_witness :
    (step ⟨1280, 720, 0, 0, false, false, false, false, false, true, false⟩
        ⟨AppState.Game, SimulationState.Running, ⟨[], [], [], 0⟩⟩).sim
      = SimulationState.Paused :=
  (c2_transition_pause _ _).1 rfl rfl

theorem findHitAux_isSome (p : Vec2) (es : List Enemy)
    (h : ∃ e ∈ es, playerHits p e = true) :
    ∀ j, (findHitAux p j es).isSome := by
  induction es with
  | nil => rcases h with ⟨e, he, -⟩; cases he
  | cons a t ih =>
      intro j
      unfold findHitAux
      rcases h with ⟨e, he, hpe⟩
      rcases List.mem_cons.mp he with rfl | hmem
      · rw [if_pos hpe]; rfl
      · split_ifs with ha
        · rfl
        · exact ih ⟨e, hmem, hpe⟩ (j + 1)

/-- C3 counterexample: the only adversary simultaneously collides with a
projectile and with the player.  The claim says the projectile resolution is
applied first and the player survives; in the code both despawns are deferred
`Commands`, so `enemy_hit_player` still sees the adversary: the projectile
scores (score 0 → 1) and despawns the adversary, yet the player is despawned
and the frame ends in `MainMenu`. -/
theorem c3_tiebreak_cex :
    (step ⟨1280, 720, 0, 0, false, false, false, false, false, false, false⟩
        ⟨AppState.Game, SimulationState.Running,
          ⟨[⟨45, 45⟩], [⟨⟨131, 40⟩, ⟨1, 0⟩, 0, 0⟩], [⟨131, 45⟩], 0⟩⟩).world.score = 1 ∧
    (step ⟨1280, 720, 0, 0, false, false, false, false, false, false, false⟩
        ⟨AppState.Game, SimulationState.Running,
          ⟨[⟨45, 45⟩], [⟨⟨131, 40⟩, ⟨1, 0⟩, 0, 0⟩], [⟨131, 45⟩], 0⟩⟩).world.players = [] ∧
    (step ⟨1280, 720, 0, 0, false, false, false, false, false, false, false⟩
        ⟨AppState.Game, SimulationState.Running,
          ⟨[⟨45, 45⟩], [⟨⟨131, 40⟩, ⟨1, 0⟩, 0, 0⟩], [⟨131, 45⟩], 0⟩⟩).app
      = AppState.MainMenu := by
  norm_num [step, stepGame, applyTransition, midPlayers, midEnemies, midBullets,
    player_movement, player_bounds, enemy_movement, enemy_bounds, enemy_direction,
    enemy_movement_one, enemy_bounds_one, enemy_direction_one,
    bullet_movement, bullet_spawn, enemy_hit_player, findHitAux, playerHits, bulletHits,
    dist2, bulletEnemyHits, bulletPairsAux, hitIdxsAux, oobIdxsAux, removeIdxs,
    removeIdxsAux, getSingle, despawn_entities, spawn_player, spawn_enemies, clampQ,
    enemyXMin, enemyXMax, rawDir, normDir, Vec2.add, Vec2.scale, GAMEAREA_PADDING,
    ENEMY_SPACING, ENEMY_PER_ROW, ENEMY_SIZE, ENEMY_SPEED, PLAYER_SIZE, PLAYER_SPEED,
    BULLET_SIZE, BULLET_SPEED, mm_ne_game, game_ne_mm, paused_ne_running,
    running_ne_paused]

/-- C3 (amended): the two collision passes are not ordered and all despawns
are deferred to the end of the frame, so both passes observe the same
pre-despawn entities: in every `Game`/`Running` frame in which some adversary
collides with the (single) player, the player is despawned and the frame ends
in `MainMenu` — regardless of which projectiles hit which adversaries in the
same frame (the projectile resolutions still score and despawn adversaries). -/
theorem c3_player_never_survives (env : Env) (s : GState) (p : Vec2)
    (hApp : s.app = AppState.Game) (hSim : s.sim = SimulationState.Running)
    (hPs : midPlayers env s.world = [p])
    (hHit : ∃ e ∈ midEnemies env s.world, playerHits p e = true) :
    (step env s).world.players = [] ∧ (step env s).app = AppState.MainMenu := by
  have hg : s.app = AppState.Game ∧ s.sim = SimulationState.Running := ⟨hApp, hSim⟩
  have hsome : (enemy_hit_player (midPlayers env s.world) (midEnemies env s.world)).isSome := by
    rw [hPs]
    show (findHitAux p 0 (midEnemies env s.world)).isSome
    exact findHitAux_isSome p _ hHit 0
  have happ : (step env s).app = AppState.MainMenu := by
    simp only [step, if_pos hg]
    simp [stepGame_snd, hsome]
  refine ⟨?_, happ⟩
  rw [step_world, if_pos hg, applyTransition_exit env _ hApp (by rw [happ]; exact mm_ne_game)]
  exact despawn_players_of_len _ (by rw [stepGame_players_of_hit env s.world hsome]; exact Nat.zero_le 1)

theorem c3_player_never_survives_witness :
    (step ⟨1280, 720, 0, 0, false, false, false, false, false, false, false⟩
        ⟨AppState.Game, SimulationState.Running,
          ⟨[⟨45, 45⟩], [⟨⟨131, 40⟩, ⟨1, 0⟩, 0, 0⟩], [], 2⟩⟩).world.players
      = [] ∧
    (step ⟨1280, 720, 0, 0, false, false, false, false, false, false, false⟩
        ⟨AppState.Game, SimulationState.Running,
          ⟨[⟨45, 45⟩], [⟨⟨131, 40⟩, ⟨1, 0⟩, 0, 0⟩], [], 2⟩⟩).app
      = AppState.MainMenu :=
  c3_player_never_survives _ _ ⟨45, 45⟩ rfl rfl
    (by norm_num [midPlayers, player_movement, player_bounds, rawDir, normDir, Vec2.add,
      Vec2.scale, clampQ, PLAYER_SIZE, PLAYER_SPEED])
    ⟨⟨⟨131, 40⟩, ⟨-1, 0⟩, 0, 0⟩,
      by norm_num [midEnemies, enemy_movement, enemy_bounds, enemy_direction,
        enemy_movement_one, enemy_bounds_one, enemy_direction_one, Vec2.add, Vec2.scale,
        clampQ, enemyXMin, enemyXMax, GAMEAREA_PADDING, ENEMY_SPACING, ENEMY_PER_ROW,
        ENEMY_SIZE, ENEMY_SPEED],
      by norm_num [playerHits, dist2, PLAYER_SIZE, ENEMY_SIZE]⟩

theorem lane_nonempty (w : ℚ) (c : Nat) (hc : c < ENEMY_PER_ROW) (hW : 622 ≤ w) :
    enemyXMin c ≤ enemyXMax w c := by
  have hcc : c = 0 ∨ c = 1 ∨ c = 2 ∨ c = 3 := by
    unfold ENEMY_PER_ROW at hc; omega
  rcases hcc with rfl | rfl | rfl | rfl <;>
    (norm_num [enemyXMin, enemyXMax, GAMEAREA_PADDING, ENEMY_SPACING, ENEMY_SIZE,
      ENEMY_PER_ROW]; linarith)

theorem enemyXMax_spec (w : ℚ) (c : Nat) (hc : c < ENEMY_PER_ROW) :
    enemyXMax w c
      = w - GAMEAREA_PADDING - ENEMY_SPACING * ((ENEMY_PER_ROW : ℚ) - (c : ℚ) - 1)
        - ENEMY_SIZE / 2 := by
  have hcc : c = 0 ∨ c = 1 ∨ c = 2 ∨ c = 3 := by
    unfold ENEMY_PER_ROW at hc; omega
  rcases hcc with rfl | rfl | rfl | rfl <;> norm_num [enemyXMax, ENEMY_PER_ROW]

theorem midPlayers_cases (env : Env) (w : World) (hLen : w.players.length ≤ 1) :
    midPlayers env w = [] ∨ ∃ q : Vec2, midPlayers env w
      = [⟨clampQ (PLAYER_SIZE / 2) (env.winW - PLAYER_SIZE / 2) q.x,
          clampQ (PLAYER_SIZE / 2) (env.winH - PLAYER_SIZE / 2) q.y⟩] := by
  rcases hw : w.players with - | ⟨a, t⟩
  · left
    show player_bounds env (player_movement env w.players) = []
    rw [hw]; rfl
  · rcases t with - | ⟨b2, t2⟩
    · right
      refine ⟨Vec2.add a (Vec2.scale (PLAYER_SPEED * env.dt) (normDir env.invSqrt2 (rawDir env))), ?_⟩
      show player_bounds env (player_movement env w.players) = _
      rw [hw]; rfl
    · rw [hw] at hLen; simp at hLen

theorem stepGame_players_len (env : Env) (w : World) :
    (stepGame env w).1.players.length ≤ w.players.length := by
  obtain h | h := stepGame_players env w
  · rw [h]; exact Nat.zero_le _
  · rw [h, midPlayers_length]

/-- C4 counterexample: the claim quantifies over every window extent; with a
degenerate window `W = H = 0` the player bounds `[45, -45]` are empty, the
clamp still assigns `x = y = 45`, and the resulting position is not within the
declared bounds. -/
theorem c4_containment_cex :
    (step ⟨0, 0, 0, 0, false, false, false, false, false, false, false⟩
        ⟨AppState.Game, SimulationState.Running, ⟨[⟨0, 0⟩], [], [], 0⟩⟩).world.players
      = [⟨45, 45⟩] ∧
    ¬ playerInBounds 0 0 ⟨45, 45⟩ := by
  constructor
  · norm_num [step, stepGame, applyTransition, midPlayers, midEnemies, midBullets,
      player_movement, player_bounds, enemy_movement, enemy_bounds, enemy_direction,
      bullet_movement, bullet_spawn, enemy_hit_player, findHitAux, bulletEnemyHits,
      bulletPairsAux, oobIdxsAux, removeIdxs, removeIdxsAux, getSingle, despawn_entities,
      spawn_player, spawn_enemies, clampQ, rawDir, normDir, Vec2.add, Vec2.scale,
      PLAYER_SIZE, PLAYER_SPEED, mm_ne_game, game_ne_mm, paused_ne_running,
      running_ne_paused]
  · norm_num [playerInBounds, PLAYER_SIZE]

/-- C4 (amended): after any single `Game`/`Running` frame — for every input,
`Δt` and every window large enough for the declared bounds to be non-empty
(`W ≥ D_player`, `H ≥ D_player`, `W ≥ 2·pad + (N_COLS-1)·spacing + D_enemy
 = 622`), in any state satisfying the data-model invariants (at most one
player, adversary columns `< N_COLS`) — every living player lies in
`[r_p, W-r_p] × [r_p, H-r_p]` and every living adversary of column `c` has
`x ∈ [pad + c·spacing + r_e, W - pad - (N_COLS-c-1)·spacing - r_e]`. -/
theorem c4_frame_containment (env : Env) (s : GState)
    (hApp : s.app = AppState.Game) (hSim : s.sim = SimulationState.Running)
    (hLen : s.world.players.length ≤ 1)
    (hCol : ∀ e ∈ s.world.enemies, e.col < ENEMY_PER_ROW)
    (hW : PLAYER_SIZE ≤ env.winW) (hH : PLAYER_SIZE ≤ env.winH)
    (hW6 : 622 ≤ env.winW) :
    (∀ p ∈ (step env s).world.players, playerInBounds env.winW env.winH p) ∧
    (∀ e ∈ (step env s).world.enemies, enemyLaneSpec env.winW e) := by
  have hg : s.app = AppState.Game ∧ s.sim = SimulationState.Running := ⟨hApp, hSim⟩
  have hPS : PLAYER_SIZE = (90 : ℚ) := rfl
  have hplayers : ∀ p ∈ (stepGame env s.world).1.players, playerInBounds env.winW env.winH p := by
    intro p hp
    obtain h1 | h1 := stepGame_players env s.world
    · rw [h1] at hp; cases hp
    · rw [h1] at hp
      obtain h2 | ⟨q, h2⟩ := midPlayers_cases env s.world hLen
      · rw [h2] at hp; cases hp
      · rw [h2] at hp
        have hp2 := List.mem_singleton.mp hp
        subst hp2
        have hx := clampQ_mem q.x (show PLAYER_SIZE / 2 ≤ env.winW - PLAYER_SIZE / 2 by
          rw [hPS] at hW ⊢; linarith)
        have hy := clampQ_mem q.y (show PLAYER_SIZE / 2 ≤ env.winH - PLAYER_SIZE / 2 by
          rw [hPS] at hH ⊢; linarith)
        exact ⟨hx.1, hx.2, hy.1, hy.2⟩
  have henemies : ∀ e ∈ (stepGame env s.world).1.enemies, enemyLaneSpec env.winW e := by
    intro e he
    obtain ⟨e0, he0, hcol, hx⟩ := midEnemies_shape env s.world e (stepGame_enemies env s.world e he)
    have hc4 : e0.col < ENEMY_PER_ROW := hCol e0 he0
    have hle := lane_nonempty env.winW e0.col hc4 hW6
    have hmem := clampQ_mem ((enemy_movement_one env e0).pos.x) hle
    rw [← hx] at hmem
    unfold enemyLaneSpec
    rw [hcol]
    refine ⟨hmem.1, ?_⟩
    rw [← enemyXMax_spec env.winW e0.col hc4]
    exact hmem.2
  rw [step_world, if_pos hg, hApp]
  obtain hcase | hcase := applyTransition_from_game env ((step env s).app) ((stepGame env s.world).1)
  · rw [hcase]; exact ⟨hplayers, henemies⟩
  · rw [hcase]
    constructor
    · intro p hp
      rw [despawn_players_of_len _ (le_trans (stepGame_players_len env s.world) hLen)] at hp
      cases hp
    · intro e he
      rw [despawn_entities_enemies] at he
      cases he

theorem c4_frame_containment_witness :
    playerInBounds 1280 720 ⟨640, 360⟩ :=
  (c4_frame_containment ⟨1280, 720, 0, 0, false, false, false, false, false, false, false⟩
      ⟨AppState.Game, SimulationState.Running, ⟨[⟨640, 360⟩], [], [], 0⟩⟩
      rfl rfl (by norm_num) (by simp) (by norm_num [PLAYER_SIZE])
      (by norm_num [PLAYER_SIZE]) (by norm_num)).1 ⟨640, 360⟩
    (by norm_num [step, stepGame, applyTransition, midPlayers, midEnemies, midBullets,
      player_movement, player_bounds, enemy_movement, enemy_bounds, enemy_direction,
      bullet_movement, bullet_spawn, enemy_hit_player, findHitAux, bulletEnemyHits,
      bulletPairsAux, oobIdxsAux, removeIdxs, removeIdxsAux, getSingle, despawn_entities,
      spawn_player, spawn_enemies, clampQ, rawDir, normDir, Vec2.add, Vec2.scale,
      PLAYER_SIZE, PLAYER_SPEED, mm_ne_game, game_ne_mm, paused_ne_running,
      running_ne_paused])

theorem hitIdxsAux_cons (b : Vec2) (j : Nat) (a : Enemy) (t : List Enemy) :
    hitIdxsAux b j (a :: t)
      = if bulletHits b a then j :: hitIdxsAux b (j + 1) t else hitIdxsAux b (j + 1) t := rfl

theorem mem_hitIdxsAux (b : Vec2) :
    ∀ (es : List Enemy) (j m : Nat), m ∈ hitIdxsAux b j es → j ≤ m := by
  intro es
  induction es with
  | nil => intro j m h; cases h
  | cons a t ih =>
      intro j m h
      rw [hitIdxsAux_cons] at h
      split_ifs at h with ha
      · rcases List.mem_cons.mp h with rfl | hmem
        · exact le_rfl
        · exact le_trans (Nat.le_succ j) (ih (j + 1) m hmem)
      · exact le_trans (Nat.le_succ j) (ih (j + 1) m h)

theorem removeIdxsAux_filter (b : Vec2) :
    ∀ (es : List Enemy) (j : Nat) (ds : List Nat),
      (∀ m, j ≤ m → (ds.contains m = true ↔ m ∈ hitIdxsAux b j es)) →
      removeIdxsAux ds j es = es.filter (fun e => !(bulletHits b e)) := by
  intro es
  induction es with
  | nil => intro j ds h; rfl
  | cons a t ih =>
      intro j ds h
      unfold removeIdxsAux
      have hj : ds.contains j = true ↔ bulletHits b a = true := by
        rw [h j (le_refl j), hitIdxsAux_cons]
        split_ifs with hb
        · simp [hb]
        · constructor
          · intro hm
            exact absurd (mem_hitIdxsAux b t (j + 1) j hm) (by omega)
          · intro hb2
            exact absurd hb2 hb
      have hnext : ∀ m, j + 1 ≤ m → (ds.contains m = true ↔ m ∈ hitIdxsAux b (j + 1) t) := by
        intro m hm
        rw [h m (by omega), hitIdxsAux_cons]
        split_ifs with hb
        · constructor
          · intro hmem
            rcases List.mem_cons.mp hmem with rfl | hmem2
            · omega
            · exact hmem2
          · intro hmem
            exact List.mem_cons_of_mem _ hmem
        · exact Iff.rfl
      rw [List.filter_cons]
      by_cases hb : bulletHits b a = true
      · rw [if_pos (hj.mpr hb), ih (j + 1) ds hnext]
        simp [hb]
      · rw [if_neg (fun hc => hb (hj.mp hc)), ih (j + 1) ds hnext]
        simp [hb]

theorem hitIdxsAux_length (b : Vec2) :
    ∀ (es : List Enemy) (j : Nat),
      (hitIdxsAux b j es).length = (es.filter (fun e => bulletHits b e)).length := by
  intro es
  induction es with
  | nil => intro j; rfl
  | cons a t ih =>
      intro j
      rw [hitIdxsAux_cons, List.filter_cons]
      by_cases hb : bulletHits b a = true <;> simp [hb, ih]

theorem bulletEnemyHits_single (b : Vec2) (es : List Enemy) :
    bulletEnemyHits [b] es = (hitIdxsAux b 0 es).map (fun j => (0, j)) := by
  simp [bulletEnemyHits, bulletPairsAux]

theorem removeIdxs_single_bullet (b : Vec2) (ds : List Nat) (h : ds.contains 0 = true) :
    removeIdxs [b] ds = [] := by
  simp [removeIdxs, removeIdxsAux, h]
  exact List.elem_iff.mp h

/-- C10: when one projectile is within collision distance of `k ≥ 2`
adversaries in the same frame, the scan of `bullet_hit_enemy` evaluates every
pair (the deferred despawns do not consume the projectile mid-scan): it emits
one score increment per overlapping adversary (so the frame's score increment
is `k`, see `frameHits` and `c6_score_monotone`), the deferred despawns remove
exactly the `k` overlapping adversaries, and the projectile is despawned. -/
theorem c10_multi_hit (b : Vec2) (es : List Enemy)
    (h2 : 2 ≤ (es.filter (fun e => bulletHits b e)).length) :
    (bulletEnemyHits [b] es).length = (es.filter (fun e => bulletHits b e)).length ∧
    removeIdxs es ((bulletEnemyHits [b] es).map Prod.snd)
      = es.filter (fun e => !(bulletHits b e)) ∧
    removeIdxs [b] ((bulletEnemyHits [b] es).map Prod.fst) = [] := by
  have hmapsnd : (bulletEnemyHits [b] es).map Prod.snd = hitIdxsAux b 0 es := by
    rw [bulletEnemyHits_single]
    simp [List.map_map, Function.comp]
  refine ⟨?_, ?_, ?_⟩
  · rw [bulletEnemyHits_single, List.length_map, hitIdxsAux_length]
  · rw [hmapsnd]
    exact removeIdxsAux_filter b es 0 _ (fun m _ => List.elem_iff)
  · have hlen := hitIdxsAux_length b es 0
    rcases hx : hitIdxsAux b 0 es with - | ⟨j0, rest⟩
    · rw [hx] at hlen
      simp at hlen
      omega
    · apply removeIdxs_single_bullet
      rw [bulletEnemyHits_single, hx]
      simp

theorem c10_multi_hit_witness :
    2 ≤ (([⟨⟨0, 0⟩, ⟨1, 0⟩, 0, 0⟩, ⟨⟨0, 1⟩, ⟨1, 0⟩, 0, 1⟩] : List Enemy).filter
        (fun e => bulletHits ⟨0, 0⟩ e)).length ∧
    removeIdxs ([⟨⟨0, 0⟩, ⟨1, 0⟩, 0, 0⟩, ⟨⟨0, 1⟩, ⟨1, 0⟩, 0, 1⟩] : List Enemy)
        ((bulletEnemyHits [⟨0, 0⟩]
            [⟨⟨0, 0⟩, ⟨1, 0⟩, 0, 0⟩, ⟨⟨0, 1⟩, ⟨1, 0⟩, 0, 1⟩]).map Prod.snd) = [] ∧
    removeIdxs [(⟨0, 0⟩ : Vec2)]
        ((bulletEnemyHits [⟨0, 0⟩]
            [⟨⟨0, 0⟩, ⟨1, 0⟩, 0, 0⟩, ⟨⟨0, 1⟩, ⟨1, 0⟩, 0, 1⟩]).map Prod.fst) = [] := by
  have hf : (([⟨⟨0, 0⟩, ⟨1, 0⟩, 0, 0⟩, ⟨⟨0, 1⟩, ⟨1, 0⟩, 0, 1⟩] : List Enemy).filter
      (fun e => bulletHits ⟨0, 0⟩ e))
      = [⟨⟨0, 0⟩, ⟨1, 0⟩, 0, 0⟩, ⟨⟨0, 1⟩, ⟨1, 0⟩, 0, 1⟩] := by
    norm_num [List.filter, bulletHits, dist2, BULLET_SIZE, ENEMY_SIZE]
  have h2 : 2 ≤ (([⟨⟨0, 0⟩, ⟨1, 0⟩, 0, 0⟩, ⟨⟨0, 1⟩, ⟨1, 0⟩, 0, 1⟩] : List Enemy).filter
      (fun e => bulletHits ⟨0, 0⟩ e)).length := by
    rw [hf]
    norm_num
  obtain ⟨-, hb, hc⟩ := c10_multi_hit ⟨0, 0⟩ _ h2
  refine ⟨h2, ?_, hc⟩
  rw [hb]
  norm_num [List.filter, bulletHits, dist2, BULLET_SIZE, ENEMY_SIZE]
